import Mathlib

/-!
Ball bearing generator (`BallBearing.cpp`): geometry and input validation.

A shallow embedding of the arithmetic of `drawBallBearing`, `createBalls`, the three
sketch helpers and the validate-inputs handler.

Modelling conventions.

* A C++ `double` is an exact rational number (`ℚ`); the literals `0.6`, `0.5`, `0.25`,
  `0.1`, `3.141592`, `180.0` are the corresponding decimal fractions.  Rounding, infinities
  and NaN are not represented.  Where a statement turns on the integer part of a quotient,
  which the rounding of the binary64 quotient can move by one, it is given with that
  tolerance or as an inequality that the rounding does not affect.
* A C++ `int` is an `Int` restricted to the 32-bit range; the conversion `(int)x` truncates
  toward zero and has no result (`none`) when the truncated value is outside that range,
  as does the conversion of the quotient by a zero divisor.  Signed `int` arithmetic that
  leaves the range wraps around modulo 2^32.
* Calls into the host object model (sketches, revolves, fillets, patterns, joints) are
  recorded as the numeric descriptors handed to the host; the host itself is not modelled
  and is taken to succeed.
-/

namespace BallBearing

/-! ## Geometry descriptors -/

/-- Arguments of `adsk::core::Point3D::create(x, y, z)`. -/
structure Point3D where
  x : ℚ
  y : ℚ
  z : ℚ
  deriving DecidableEq, Repr

/-- Arguments of `sketchLines()->addByTwoPoints(startPoint, endPoint)`. -/
structure SketchLine where
  startPoint : Point3D
  endPoint : Point3D
  deriving DecidableEq, Repr

/-- Arguments of `sketchCircles()->addByCenterRadius(center, radius)`. -/
structure SketchCircle where
  center : Point3D
  radius : ℚ
  deriving DecidableEq, Repr

/-- Arguments of `sketchArcs()->addByCenterStartSweep(center, startPoint, sweepAngle)`. -/
structure SketchArc where
  center : Point3D
  startPoint : Point3D
  sweepAngle : ℚ
  deriving DecidableEq, Repr

/-! ## Machine integers -/

/-- Smallest value of a 32-bit `int`. -/
def INT_MIN : Int := -(2 ^ 31)

/-- Largest value of a 32-bit `int`. -/
def INT_MAX : Int := 2 ^ 31 - 1

/-- The value `x` with its fractional part discarded (rounding toward zero). -/
def truncate (x : ℚ) : Int :=
  if 0 ≤ x then ⌊x⌋ else ⌈x⌉

/-- An `Int` as an `int`: defined only inside the 32-bit range. -/
def checkedInt (n : Int) : Option Int :=
  if INT_MIN ≤ n ∧ n ≤ INT_MAX then some n else none

/-- The conversion `(int)x` of a `double`. -/
def castInt (x : ℚ) : Option Int :=
  checkedInt (truncate x)

/-- An `Int` reduced into the 32-bit range modulo 2^32: the value of signed `int`
arithmetic whose exact result is `n`. -/
def wrapInt (n : Int) : Int :=
  (n - INT_MIN) % 2 ^ 32 + INT_MIN

/-- The value `r` is a possible binary64 result for the exact value `x`: rounding to nearest
has relative error at most 2^-53, or absolute error at most 2^-1075 in the subnormal
range. -/
def binary64Rounds (x r : ℚ) : Prop :=
  |r - x| ≤ |x| / 2 ^ 53 + 1 / 2 ^ 1075

/-! ## `drawBallBearing`: derived dimensions -/

/-- The local `dBallRadius` of `drawBallBearing` after line 513. -/
def dBallRadius (innerDiameter outerDiameter thickness : ℚ) : ℚ :=
  let r0 := thickness * 0.6
  let r1 :=
    if r0 > (outerDiameter - innerDiameter) * 0.5 * 0.6 then
      (outerDiameter - innerDiameter) * 0.5 * 0.6
    else r0
  r1 * 0.5

/-- The local `dRingWidth` of `drawBallBearing`. -/
def dRingWidth (innerDiameter outerDiameter thickness : ℚ) : ℚ :=
  (outerDiameter - innerDiameter) * 0.25
    - dBallRadius innerDiameter outerDiameter thickness * 0.5

/-! ## Sketch helpers -/

/-- The circle `drawBallCutoutSketch` adds to its sketch. -/
def drawBallCutoutSketch (radius offset : ℚ) : SketchCircle :=
  { center := ⟨offset, 0, 0.0⟩, radius := radius }

/-- The four lines `drawInnerRingSketch` adds to its sketch, in order. -/
def drawInnerRingSketch (radius ringWidth thickness : ℚ) : List SketchLine :=
  [ ⟨⟨radius, -thickness * 0.5, 0⟩, ⟨radius, thickness * 0.5, 0⟩⟩,
    ⟨⟨radius, thickness * 0.5, 0⟩, ⟨radius + ringWidth, thickness * 0.5, 0⟩⟩,
    ⟨⟨radius + ringWidth, thickness * 0.5, 0⟩, ⟨radius + ringWidth, -thickness * 0.5, 0⟩⟩,
    ⟨⟨radius + ringWidth, -thickness * 0.5, 0⟩, ⟨radius, -thickness * 0.5, 0⟩⟩ ]

/-- The four lines `drawOuterRingSketch` adds to its sketch, in order. -/
def drawOuterRingSketch (radius ringWidth thickness : ℚ) : List SketchLine :=
  [ ⟨⟨radius, -thickness * 0.5, 0⟩, ⟨radius, thickness * 0.5, 0⟩⟩,
    ⟨⟨radius, thickness * 0.5, 0⟩, ⟨radius - ringWidth, thickness * 0.5, 0⟩⟩,
    ⟨⟨radius - ringWidth, thickness * 0.5, 0⟩, ⟨radius - ringWidth, -thickness * 0.5, 0⟩⟩,
    ⟨⟨radius - ringWidth, -thickness * 0.5, 0⟩, ⟨radius, -thickness * 0.5, 0⟩⟩ ]

/-! ## `createBalls` -/

/-- The local `iBallCount` of `createBalls`:
`(int)(2.0 * 3.141592 * ballsOffset / (ballRadius * 2.0)) - 1`. -/
def iBallCount (ballRadius ballsOffset : ℚ) : Option Int :=
  if ballRadius * 2.0 = 0 then none
  else
    (castInt (2.0 * 3.141592 * ballsOffset / (ballRadius * 2.0))).map
      fun n => wrapInt (n - 1)

/-- What `createBalls` hands to the host: the half-disk profile (arc and closing line)
and the quantity of the circular pattern. -/
structure BallsFeature where
  arc : SketchArc
  line : SketchLine
  quantity : Int
  deriving DecidableEq, Repr

/-- Model of `createBalls(newComp, innerRing, ballRadius, ballsOffset)`. -/
def createBalls (ballRadius ballsOffset : ℚ) : Option BallsFeature :=
  (iBallCount ballRadius ballsOffset).map fun n =>
    { arc := ⟨⟨ballsOffset, 0, 0.0⟩, ⟨ballsOffset - ballRadius, 0, 0.0⟩, 180.0⟩
      line := ⟨⟨ballsOffset + ballRadius, 0, 0.0⟩, ⟨ballsOffset - ballRadius, 0, 0.0⟩⟩
      quantity := n }

/-! ## `drawBallBearing` -/

/-- Everything `drawBallBearing` hands to the host, in the order of the source.  `balls` is
`none` when the conversion to `int` inside `createBalls` has no defined result. -/
structure Bearing where
  ballsCutout : SketchCircle
  innerRing : List SketchLine
  outerRing : List SketchLine
  innerFilletRadius : ℚ
  outerFilletRadius : ℚ
  balls : Option BallsFeature
  deriving DecidableEq, Repr

/-- The quantity of the circular pattern of balls, when `createBalls` computed one. -/
def Bearing.ballCount (b : Bearing) : Option Int :=
  b.balls.map fun f => f.quantity

/-- Model of `drawBallBearing(design, innerDiameter, outerDiameter, thickness)`. -/
def drawBallBearing (innerDiameter outerDiameter thickness : ℚ) : Bearing :=
  let dBallRadius := dBallRadius innerDiameter outerDiameter thickness
  let dRingWidth := dRingWidth innerDiameter outerDiameter thickness
  let ptrSketchBallsCutout :=
    drawBallCutoutSketch dBallRadius ((outerDiameter + innerDiameter) * 0.5 * 0.5)
  let ptrSketchInnerRing := drawInnerRingSketch (innerDiameter * 0.5) dRingWidth thickness
  let ptrSketchOuterRing := drawOuterRingSketch (outerDiameter * 0.5) dRingWidth thickness
  { ballsCutout := ptrSketchBallsCutout
    innerRing := ptrSketchInnerRing
    outerRing := ptrSketchOuterRing
    innerFilletRadius := dRingWidth * 0.1
    outerFilletRadius := dRingWidth * 0.1
    balls := createBalls dBallRadius ((innerDiameter + outerDiameter) * 0.5 * 0.5) }

/-! ## Point sets of the sketch curves -/

/-- The point `(x, y)` of the sketch plane lies on the circle `c`. -/
def SketchCircle.Passes (c : SketchCircle) (x y : ℝ) : Prop :=
  (x - (c.center.x : ℝ)) ^ 2 + (y - (c.center.y : ℝ)) ^ 2 = (c.radius : ℝ) ^ 2

/-- The point `(x, y)` of the sketch plane lies on the segment `l`. -/
def SketchLine.Passes (l : SketchLine) (x y : ℝ) : Prop :=
  ∃ s : ℝ, 0 ≤ s ∧ s ≤ 1 ∧
    x = (1 - s) * (l.startPoint.x : ℝ) + s * (l.endPoint.x : ℝ) ∧
    y = (1 - s) * (l.startPoint.y : ℝ) + s * (l.endPoint.y : ℝ)

/-- Every line of `ls` ends where the next one starts, and the last one ends where the
first one starts. -/
def ClosedLoop (ls : List SketchLine) : Prop :=
  List.Chain' (fun a b => a.endPoint = b.startPoint) ls ∧
    ls.getLast?.map (fun l => l.endPoint) = ls.head?.map (fun l => l.startPoint) ∧ ls ≠ []

/-- End points of the lines of `ls`. -/
def vertices (ls : List SketchLine) : List Point3D :=
  ls.flatMap fun l => [l.startPoint, l.endPoint]

/-! ## Input validation -/

/-- A value command input of the dialog, reduced to what the units manager makes of its
expression: the value it evaluates to, or `none` when `isValidExpression` is false. -/
structure ValueCommandInput where
  expression : Option ℚ
  deriving DecidableEq, Repr

/-- Model of `getCommandInputValue(commandInput, unitType, value)`: the returned `bool` and
the contents of `*value`.  A null `commandInput` is `none`. -/
def getCommandInputValue (commandInput : Option ValueCommandInput) : Bool × ℚ :=
  match commandInput with
  | none => (false, 0)
  | some valCommandInput =>
    match valCommandInput.expression with
    | some v => (true, v)
    | none => (false, 0)

/-- What the validate-inputs handler writes to: the text of the error box
`gptrErrorMessage` and the `areInputsValid` property of the event arguments. -/
structure ValidateInputs where
  errorMessageText : String
  areInputsValid : Bool
  deriving DecidableEq, Repr

/-- Model of `GearCommandValidateInputsEventHandler::notify`. -/
def GearCommandValidateInputsEventHandler.notify
    (gptrInnerDiameter gptrOuterDiameter gptrThickness : Option ValueCommandInput)
    (eventArgs : ValidateInputs) : ValidateInputs :=
  let eventArgs := { eventArgs with errorMessageText := "" }
  let r1 := getCommandInputValue gptrInnerDiameter
  if !r1.1 then { eventArgs with areInputsValid := false }
  else
    let dInnerDiameter := r1.2
    let r2 := getCommandInputValue gptrOuterDiameter
    if !r2.1 then { eventArgs with areInputsValid := false }
    else
      let dOuterDiameter := r2.2
      let r3 := getCommandInputValue gptrThickness
      if !r3.1 then { eventArgs with areInputsValid := false }
      else
        let dThickness := r3.2
        if dInnerDiameter ≥ dOuterDiameter then
          { errorMessageText := "Inner diameter cannot be bigger than the outer one."
            areInputsValid := false }
        else if dThickness ≤ 0.0 then
          { errorMessageText := "Thickness value needs to be bigger than 0.0"
            areInputsValid := false }
        else eventArgs

/-! ## Auxiliary facts -/

theorem dBallRadius_min (i o t : ℚ) :
    dBallRadius i o t = min t ((o - i) * 0.5) * 0.6 * 0.5 := by
  unfold dBallRadius
  simp only []
  split_ifs with h
  · have h1 : (o - i) * 0.5 ≤ t := by
      norm_num at h ⊢
      linarith
    rw [min_eq_right h1]
  · have h1 : t ≤ (o - i) * 0.5 := by
      norm_num at h ⊢
      linarith
    rw [min_eq_left h1]

theorem dBallRadius_pos_of_valid (i o t : ℚ) (hio : i < o) (ht : 0 < t) :
    0 < dBallRadius i o t := by
  rw [dBallRadius_min]
  have h1 : 0 < min t ((o - i) * 0.5) := by
    apply lt_min ht
    linarith
  exact mul_pos (mul_pos h1 (by norm_num)) (by norm_num)

theorem truncate_of_nonneg {x : ℚ} (hx : 0 ≤ x) : truncate x = ⌊x⌋ := by
  simp [truncate, hx]

theorem truncate_mono {x y : ℚ} (hxy : x ≤ y) : truncate x ≤ truncate y := by
  unfold truncate
  split_ifs with hx hy hy
  · exact Int.floor_mono hxy
  · exact absurd (le_trans hx hxy) hy
  · exact le_trans (Int.ceil_le.mpr (by push_cast; linarith [not_le.mp hx])) (Int.floor_nonneg.mpr hy)
  · exact Int.ceil_mono hxy

theorem dBallRadius_le_thickness (i o t : ℚ) : dBallRadius i o t ≤ t * 0.3 := by
  rw [dBallRadius_min]
  have h1 : min t ((o - i) * 0.5) ≤ t := min_le_left _ _
  generalize min t ((o - i) * 0.5) = m at h1 ⊢
  norm_num
  linarith

theorem dBallRadius_le_gap (i o t : ℚ) : dBallRadius i o t ≤ (o - i) * 0.15 := by
  rw [dBallRadius_min]
  have h1 : min t ((o - i) * 0.5) ≤ (o - i) * 0.5 := min_le_right _ _
  generalize min t ((o - i) * 0.5) = m at h1 ⊢
  norm_num at h1 ⊢
  linarith

theorem notify_valid_expressions (i o t : ℚ) (s : ValidateInputs) :
    GearCommandValidateInputsEventHandler.notify (some ⟨some i⟩) (some ⟨some o⟩)
        (some ⟨some t⟩) s =
      if i ≥ o then ⟨"Inner diameter cannot be bigger than the outer one.", false⟩
      else if t ≤ 0 then ⟨"Thickness value needs to be bigger than 0.0", false⟩
      else ⟨"", s.areInputsValid⟩ := by
  simp [GearCommandValidateInputsEventHandler.notify, getCommandInputValue]
  norm_num

theorem wrapInt_sub_one (n : Int) (h0 : INT_MIN ≤ n) (h1 : n ≤ INT_MAX) :
    wrapInt (n - 1) = if n = INT_MIN then INT_MAX else n - 1 := by
  unfold wrapInt INT_MIN INT_MAX at *
  norm_num at h0 h1 ⊢
  split_ifs with h
  · omega
  · omega

theorem iBallCount_eq_some_iff (br off : ℚ) (c : Int) (hbr : br ≠ 0) :
    iBallCount br off = some c ↔
      (INT_MIN ≤ truncate (2.0 * 3.141592 * off / (br * 2.0)) ∧
        truncate (2.0 * 3.141592 * off / (br * 2.0)) ≤ INT_MAX ∧
        c = wrapInt (truncate (2.0 * 3.141592 * off / (br * 2.0)) - 1)) := by
  have h2 : ¬ br * 2.0 = 0 := by
    norm_num
    exact hbr
  unfold iBallCount castInt checkedInt
  rw [if_neg h2]
  generalize truncate (2.0 * 3.141592 * off / (br * 2.0)) = n
  by_cases h1 : INT_MIN ≤ n ∧ n ≤ INT_MAX
  · rw [if_pos h1]
    simp only [Option.map_some', Option.some.injEq]
    constructor
    · intro h
      exact ⟨h1.1, h1.2, h.symm⟩
    · intro h
      exact h.2.2.symm
  · rw [if_neg h1]
    simp only [Option.map_none', false_iff, reduceCtorEq]
    intro h
    exact h1 ⟨h.1, h.2.1⟩

theorem createBalls_quantity (br off : ℚ) (f : BallsFeature)
    (h : createBalls br off = some f) : iBallCount br off = some f.quantity := by
  unfold createBalls at h
  cases hc : iBallCount br off with
  | none => simp [hc] at h
  | some n =>
    rw [hc] at h
    simp only [Option.map_some', Option.some.injEq] at h
    rw [← h]

theorem drawBallBearing_ballCount (i o t : ℚ) :
    (drawBallBearing i o t).ballCount
      = iBallCount (dBallRadius i o t) ((i + o) * 0.5 * 0.5) := by
  simp [drawBallBearing, Bearing.ballCount, createBalls, Option.map_map, Function.comp_def]

theorem iBallCount_mono (br r1 r2 : ℚ) (c1 c2 : Int) (hbr : 0 < br) (hr : r1 ≤ r2)
    (h1 : iBallCount br r1 = some c1) (h2 : iBallCount br r2 = some c2)
    (hwrap : c1 ≠ INT_MAX) : c1 ≤ c2 := by
  rw [iBallCount_eq_some_iff _ _ _ hbr.ne'] at h1 h2
  have hq : 2.0 * 3.141592 * r1 / (br * 2.0) ≤ 2.0 * 3.141592 * r2 / (br * 2.0) := by
    apply div_le_div_of_nonneg_right _ (by positivity)
    apply mul_le_mul_of_nonneg_left hr (by norm_num)
  have hmono := truncate_mono hq
  obtain ⟨a1, b1, e1⟩ := h1
  obtain ⟨a2, b2, e2⟩ := h2
  rw [wrapInt_sub_one _ a1 b1] at e1
  rw [wrapInt_sub_one _ a2 b2] at e2
  generalize truncate (2.0 * 3.141592 * r1 / (br * 2.0)) = n1 at *
  generalize truncate (2.0 * 3.141592 * r2 / (br * 2.0)) = n2 at *
  unfold INT_MIN INT_MAX at *
  split_ifs at e1 e2 <;> omega

theorem ballQuotient_ge_five (i o t : ℚ) (hi : 0 < i) (hio : i < o) (ht : 0 < t) :
    5 ≤ 2.0 * 3.141592 * ((i + o) * 0.5 * 0.5) / (dBallRadius i o t * 2.0) := by
  have hbr := dBallRadius_pos_of_valid i o t hio ht
  have hgap := dBallRadius_le_gap i o t
  rw [le_div_iff₀ (by positivity)]
  norm_num at hgap ⊢
  linarith

theorem ballCount_valid_iff (i o t : ℚ) (hi : 0 < i) (hio : i < o) (ht : 0 < t) (c : Int) :
    (drawBallBearing i o t).ballCount = some c ↔
      (c = ⌊2.0 * 3.141592 * ((i + o) * 0.5 * 0.5) / (dBallRadius i o t * 2.0)⌋ - 1 ∧
        ⌊2.0 * 3.141592 * ((i + o) * 0.5 * 0.5) / (dBallRadius i o t * 2.0)⌋ ≤ INT_MAX) := by
  have hbr := dBallRadius_pos_of_valid i o t hio ht
  have hq := ballQuotient_ge_five i o t hi hio ht
  have hq0 : (0 : ℚ) ≤ 2.0 * 3.141592 * ((i + o) * 0.5 * 0.5) / (dBallRadius i o t * 2.0) :=
    le_trans (by norm_num) hq
  have h5 : (5 : Int) ≤ ⌊2.0 * 3.141592 * ((i + o) * 0.5 * 0.5) / (dBallRadius i o t * 2.0)⌋ :=
    Int.le_floor.mpr (by exact_mod_cast hq)
  rw [drawBallBearing_ballCount, iBallCount_eq_some_iff _ _ _ hbr.ne', truncate_of_nonneg hq0]
  have hmin : INT_MIN ≤ ⌊2.0 * 3.141592 * ((i + o) * 0.5 * 0.5) / (dBallRadius i o t * 2.0)⌋ := by
    unfold INT_MIN
    omega
  have hne : ⌊2.0 * 3.141592 * ((i + o) * 0.5 * 0.5) / (dBallRadius i o t * 2.0)⌋ ≠ INT_MIN := by
    unfold INT_MIN
    omega
  constructor
  · rintro ⟨-, h2, h3⟩
    rw [wrapInt_sub_one _ hmin h2, if_neg hne] at h3
    exact ⟨h3, h2⟩
  · rintro ⟨h3, h2⟩
    refine ⟨hmin, h2, ?_⟩
    rw [wrapInt_sub_one _ hmin h2, if_neg hne]
    exact h3

theorem ballCount_valid_ge_four (i o t : ℚ) (hi : 0 < i) (hio : i < o) (ht : 0 < t)
    (c : Int) (hc : (drawBallBearing i o t).ballCount = some c) : 4 ≤ c := by
  have hq := ballQuotient_ge_five i o t hi hio ht
  have h5 : (5 : Int) ≤ ⌊2.0 * 3.141592 * ((i + o) * 0.5 * 0.5) / (dBallRadius i o t * 2.0)⌋ :=
    Int.le_floor.mpr (by exact_mod_cast hq)
  rw [ballCount_valid_iff i o t hi hio ht] at hc
  omega

theorem abs_half_thickness (t : ℚ) (ht : 0 < t) :
    |(-t * 0.5 : ℚ)| = t / 2 ∧ |(t * 0.5 : ℚ)| = t / 2 := by
  constructor
  · rw [abs_of_neg (by norm_num; exact ht)]
    norm_num
    ring
  · rw [abs_of_pos (by norm_num; exact ht)]
    norm_num
    ring

theorem segment_abs_le (s y0 y1 T : ℝ) (hs0 : 0 ≤ s) (hs1 : s ≤ 1) (h0 : |y0| ≤ T)
    (h1 : |y1| ≤ T) : |(1 - s) * y0 + s * y1| ≤ T := by
  rw [abs_le] at h0 h1 ⊢
  have hs1' : 0 ≤ 1 - s := by linarith
  constructor
  · nlinarith [mul_nonneg hs1' (by linarith [h0.1] : 0 ≤ y0 + T),
      mul_nonneg hs0 (by linarith [h1.1] : 0 ≤ y1 + T)]
  · nlinarith [mul_nonneg hs1' (by linarith [h0.2] : 0 ≤ T - y0),
      mul_nonneg hs0 (by linarith [h1.2] : 0 ≤ T - y1)]

theorem mem_vertices (ls : List SketchLine) (p : Point3D) :
    p ∈ vertices ls ↔ ∃ l ∈ ls, p = l.startPoint ∨ p = l.endPoint := by
  simp [vertices, List.mem_flatMap]

theorem line_within_band (l : SketchLine) (T : ℚ) (h0 : |l.startPoint.y| = T)
    (h1 : |l.endPoint.y| = T) (x y : ℝ) (h : l.Passes x y) : |y| ≤ (T : ℝ) := by
  obtain ⟨s, hs0, hs1, -, hy⟩ := h
  rw [hy]
  apply segment_abs_le s _ _ _ hs0 hs1
  · rw [← h0]
    push_cast
    exact le_refl _
  · rw [← h1]
    push_cast
    exact le_refl _

theorem circle_within_band (c : SketchCircle) (T : ℚ) (hy : c.center.y = 0)
    (hr0 : 0 ≤ c.radius) (hr : c.radius ≤ T) (x y : ℝ) (h : c.Passes x y) :
    |y| ≤ (T : ℝ) := by
  unfold SketchCircle.Passes at h
  rw [hy] at h
  have hsq : y ^ 2 ≤ (c.radius : ℝ) ^ 2 := by
    have := sq_nonneg (x - (c.center.x : ℝ))
    push_cast at h
    nlinarith
  have habs := sq_le_sq.mp hsq
  have hr0' : (0 : ℝ) ≤ (c.radius : ℝ) := by exact_mod_cast hr0
  rw [abs_of_nonneg hr0'] at habs
  have hr' : (c.radius : ℝ) ≤ (T : ℝ) := by exact_mod_cast hr
  exact le_trans habs hr'

theorem ballCount_outside_int_range :
    (drawBallBearing 1 10000000000 1).ballCount = none := by
  simp [drawBallBearing, Bearing.ballCount, createBalls, iBallCount, castInt, checkedInt,
    wrapInt, truncate, dBallRadius, INT_MIN, INT_MAX]
  norm_num

theorem createBalls_wraps_iff (br off : ℚ) (f : BallsFeature) (hbr : br ≠ 0)
    (h : createBalls br off = some f) :
    f.quantity = INT_MAX ↔ truncate (2.0 * 3.141592 * off / (br * 2.0)) = INT_MIN := by
  have hq := createBalls_quantity br off f h
  rw [iBallCount_eq_some_iff _ _ _ hbr] at hq
  obtain ⟨a, b, e⟩ := hq
  rw [wrapInt_sub_one _ a b] at e
  generalize truncate (2.0 * 3.141592 * off / (br * 2.0)) = n at *
  unfold INT_MIN INT_MAX at *
  split_ifs at e <;> omega

theorem truncate_near (q q0 : ℚ) (hq0 : 0 ≤ q0) (h1 : q0 - 1 < q) (h2 : q < q0 + 1) :
    |truncate q - ⌊q0⌋| ≤ 1 := by
  unfold truncate
  rw [abs_le]
  split_ifs with h
  · constructor
    · have : ⌊q0 - 1⌋ ≤ ⌊q⌋ := Int.floor_mono h1.le
      rw [Int.floor_sub_one] at this
      linarith
    · have : ⌊q⌋ ≤ ⌊q0 + 1⌋ := Int.floor_mono h2.le
      rw [Int.floor_add_one] at this
      linarith
  · push_neg at h
    have hc : ⌈q⌉ = 0 := by
      rw [Int.ceil_eq_iff]
      push_cast
      constructor
      · linarith
      · linarith
    have hf : ⌊q0⌋ = 0 := by
      rw [Int.floor_eq_iff]
      push_cast
      constructor
      · linarith
      · linarith
    rw [hc, hf]
    norm_num

theorem rounded_quotient_near (s A y q lit : ℚ) (hs : 0 ≤ s)
    (hlit : |lit - 3.141592| ≤ 3.141592 / 2 ^ 53 + 1 / 2 ^ 1075)
    (hA : A = 2 * lit * s)
    (hy : |y - A| ≤ A / 2 ^ 53 + 1 / 4)
    (hq : |q - y| ≤ |y| / 2 ^ 53 + 1 / 2 ^ 1075)
    (hM : q < 2 ^ 31) :
    2 * 3.141592 * s - 1 < q ∧ q < 2 * 3.141592 * s + 1 := by
  rw [abs_le] at hlit hy
  have hls : |(lit - 3.141592) * s| ≤ (3.141592 / 2 ^ 53 + 1 / 2 ^ 1075) * s := by
    rw [abs_mul, abs_of_nonneg hs]
    exact mul_le_mul_of_nonneg_right (abs_le.mpr hlit) hs
  rw [abs_le] at hls
  have hA0 : 0 ≤ A := by
    rw [hA]
    have : 0 ≤ lit := by
      norm_num at hlit
      linarith [hlit.1]
    positivity
  have hyabs : |y| ≤ y + 1 / 2 := by
    rw [abs_le]
    constructor
    · norm_num at hy ⊢
      linarith [hy.1]
    · linarith
  rw [abs_le] at hq
  have e : A = 2 * 3.141592 * s + 2 * ((lit - 3.141592) * s) := by
    rw [hA]
    ring
  norm_num at hlit hls hy hq hyabs hM e ⊢
  constructor
  · linarith [hq.1, hq.2, hy.1, hy.2, hls.1, hls.2]
  · linarith [hq.1, hq.2, hy.1, hy.2, hls.1, hls.2]

/-- Line 478 under binary64 rounding: for a positive binary64 ball radius (at least 2^-1074)
and an orbit radius >= 0, let `lit` be the rounded literal, `x` the rounded product
`2.0 * 3.141592 * ballsOffset` and `q` the rounded quotient `x / (ballRadius * 2.0)`
(multiplying by 2.0 is exact).  If the conversion `(int)q` is defined, the count
`(int)q - 1` is within one of `floor(2 * 3.141592 * ballsOffset / (ballRadius * 2)) - 1`. -/
theorem rounded_count_near_floor (br off lit x q : ℚ) (n : Int)
    (hbr : 1 / 2 ^ 1074 ≤ br) (hoff : 0 ≤ off)
    (hlit : binary64Rounds 3.141592 lit)
    (hx : binary64Rounds (2.0 * lit * off) x)
    (hq : binary64Rounds (x / (br * 2.0)) q)
    (hn : castInt q = some n) :
    |wrapInt (n - 1) - (⌊2 * 3.141592 * off / (br * 2)⌋ - 1)| ≤ 1 := by
  unfold binary64Rounds at hlit hx hq
  have hbr0 : 0 < br := lt_of_lt_of_le (by positivity) hbr
  have hd : 0 < br * 2 := by positivity
  have hlit3 : |(3.141592 : ℚ)| = 3.141592 := abs_of_pos (by norm_num)
  rw [hlit3] at hlit
  have hlit0 : 0 ≤ lit := by
    have := (abs_le.mp hlit).1
    norm_num at this
    linarith
  have ha0 : 0 ≤ 2.0 * lit * off := by positivity
  rw [abs_of_nonneg ha0] at hx
  have e20 : (2.0 : ℚ) = 2 := by norm_num
  rw [e20] at hx hq ha0
  have hy : |x / (br * 2) - 2 * lit * (off / (br * 2))|
      ≤ 2 * lit * (off / (br * 2)) / 2 ^ 53 + 1 / 4 := by
    have e : x / (br * 2) - 2 * lit * (off / (br * 2)) = (x - 2 * lit * off) / (br * 2) := by
      field_simp
    rw [e, abs_div, abs_of_pos hd, div_le_iff₀ hd]
    have hsmall : (1 : ℚ) / 2 ^ 1075 ≤ 1 / 4 * (br * 2) := by
      norm_num at hbr ⊢
      linarith
    have e2 : (2 * lit * (off / (br * 2)) / 2 ^ 53 + 1 / 4) * (br * 2)
        = 2 * lit * off / 2 ^ 53 + 1 / 4 * (br * 2) := by
      field_simp
      ring
    rw [e2]
    linarith
  have hcast : INT_MIN ≤ truncate q ∧ truncate q ≤ INT_MAX ∧ n = truncate q := by
    unfold castInt checkedInt at hn
    by_cases h : INT_MIN ≤ truncate q ∧ truncate q ≤ INT_MAX
    · rw [if_pos h] at hn
      exact ⟨h.1, h.2, (Option.some.inj hn).symm⟩
    · rw [if_neg h] at hn
      exact absurd hn (by simp)
  have hM : q < 2 ^ 31 := by
    by_contra hge
    push_neg at hge
    have hq0 : (0 : ℚ) ≤ q := le_trans (by norm_num) hge
    have hfl : (2 ^ 31 : Int) ≤ ⌊q⌋ := Int.le_floor.mpr (by exact_mod_cast hge)
    have := hcast.2.1
    unfold truncate INT_MAX at this
    rw [if_pos hq0] at this
    omega
  have hs : 0 ≤ off / (br * 2) := by positivity
  obtain ⟨hlo, hhi⟩ := rounded_quotient_near (off / (br * 2)) (2 * lit * (off / (br * 2)))
    (x / (br * 2)) q lit hs hlit rfl hy hq hM
  have eq0 : 2 * 3.141592 * (off / (br * 2)) = 2 * 3.141592 * off / (br * 2) := by ring
  rw [eq0] at hlo hhi
  have hq0 : (0 : ℚ) ≤ 2 * 3.141592 * off / (br * 2) := by positivity
  have hnear := truncate_near q _ hq0 hlo hhi
  have hnn : 0 ≤ truncate q := by
    unfold truncate
    split_ifs with h
    · exact Int.floor_nonneg.mpr h
    · push_neg at h
      have : (-1 : ℚ) < q := by linarith
      have hc : ⌈q⌉ = 0 := by
        rw [Int.ceil_eq_iff]
        push_cast
        constructor
        · linarith
        · linarith
      rw [hc]
  rw [hcast.2.2]
  have hw : wrapInt (truncate q - 1) = truncate q - 1 := by
    have := hcast.2.1
    unfold wrapInt INT_MIN INT_MAX at *
    omega
  rw [hw]
  have : truncate q - 1 - (⌊2 * 3.141592 * off / (br * 2)⌋ - 1)
      = truncate q - ⌊2 * 3.141592 * off / (br * 2)⌋ := by ring
  rw [this]
  exact hnear

/-- The bounds of `binary64Rounds` at ballRadius = 2.1, ballsOffset = 10762500, the values
passed for innerDiameter = 1, outerDiameter = 43049999, thickness = 7: the binary64 literal,
product and quotient give the count 16100657, while the exact quotient is the integer
16100659 and gives 16100658. -/
theorem rounded_count_example :
    binary64Rounds 3.141592 (3537118140137533 / 1125899906842624) ∧
      binary64Rounds (2.0 * (3537118140137533 / 1125899906842624) * 10762500)
        (4538087127593779 / 67108864) ∧
      binary64Rounds
        (4538087127593779 / 67108864 / (4728779608739021 / 2251799813685248 * 2.0))
        (8643975481131007 / 536870912) ∧
      castInt (8643975481131007 / 536870912) = some 16100658 ∧
      wrapInt (16100658 - 1) = 16100657 ∧
      (drawBallBearing 1 43049999 7).ballsCutout = ⟨⟨10762500, 0, 0⟩, 2.1⟩ ∧
      iBallCount 2.1 10762500 = some 16100658 := by
  refine ⟨?_, ?_, ?_, ?_, ?_, ?_, ?_⟩
  · unfold binary64Rounds
    rw [abs_le]
    norm_num [abs_of_pos]
  · unfold binary64Rounds
    rw [abs_le]
    norm_num [abs_of_pos]
  · unfold binary64Rounds
    rw [abs_le]
    norm_num [abs_of_pos]
  · simp [castInt, checkedInt, truncate, INT_MIN, INT_MAX]
    norm_num
  · simp [wrapInt, INT_MIN]
  · norm_num [drawBallBearing, drawBallCutoutSketch, dBallRadius]
  · simp [iBallCount, castInt, checkedInt, wrapInt, truncate, INT_MIN, INT_MAX]
    norm_num

/-! ## The derived dimensions -/

/-- C1: for every innerDiameter, outerDiameter and thickness, the ball radius that
`drawBallBearing` computes (and hands to the ball cutout sketch) equals
`min(thickness, (outerDiameter - innerDiameter) * 0.5) * 0.6 * 0.5`. -/
theorem ballRadius_eq_min_form (innerDiameter outerDiameter thickness : ℚ) :
    dBallRadius innerDiameter outerDiameter thickness
        = min thickness ((outerDiameter - innerDiameter) * 0.5) * 0.6 * 0.5 ∧
      (drawBallBearing innerDiameter outerDiameter thickness).ballsCutout.radius
        = min thickness ((outerDiameter - innerDiameter) * 0.5) * 0.6 * 0.5 :=
  ⟨dBallRadius_min _ _ _, dBallRadius_min _ _ _⟩

/-- C2: for every valid spec (innerDiameter > 0, innerDiameter < outerDiameter,
thickness > 0) the ball radius computed by `drawBallBearing` is positive and at most
`0.3 * min(thickness, outerDiameter - innerDiameter)`. -/
theorem ballRadius_bounds (innerDiameter outerDiameter thickness : ℚ)
    (_hInner : 0 < innerDiameter) (hLt : innerDiameter < outerDiameter)
    (hThickness : 0 < thickness) :
    0 < dBallRadius innerDiameter outerDiameter thickness ∧
      dBallRadius innerDiameter outerDiameter thickness
        ≤ 0.3 * min thickness (outerDiameter - innerDiameter) := by
  refine ⟨dBallRadius_pos_of_valid _ _ _ hLt hThickness, ?_⟩
  have h1 := dBallRadius_le_thickness innerDiameter outerDiameter thickness
  have h2 := dBallRadius_le_gap innerDiameter outerDiameter thickness
  rcases le_total thickness (outerDiameter - innerDiameter) with h | h
  · rw [min_eq_left h]
    norm_num at h1 ⊢
    linarith
  · rw [min_eq_right h]
    norm_num at h2 ⊢
    linarith

/-- Witness of C2 at the default dialog values 10, 20, 5. -/
theorem ballRadius_bounds_witness :
    0 < dBallRadius 10 20 5 ∧ dBallRadius 10 20 5 ≤ 0.3 * min 5 (20 - 10) :=
  ballRadius_bounds 10 20 5 (by norm_num) (by norm_num) (by norm_num)

/-- C4, refuted as stated: for innerDiameter = 10, outerDiameter = 10.001, thickness = 5
the ring width computed by `drawBallBearing` is not `≤ 0`. -/
theorem ringWidth_thin_gap_not_nonpos : ¬ dRingWidth 10 10.001 5 ≤ 0 := by
  norm_num [dRingWidth, dBallRadius]

/-- C4, amended: for innerDiameter = 10, outerDiameter = 10.001, thickness = 5 the ball
radius is clamped to 0.00015 and the ring width is 0.000175, which is positive. -/
theorem ringWidth_thin_gap_value :
    dBallRadius 10 10.001 5 = 0.00015 ∧ dRingWidth 10 10.001 5 = 0.000175 ∧
      0 < dRingWidth 10 10.001 5 := by
  norm_num [dRingWidth, dBallRadius]

/-- C6: when all three expressions evaluate to numbers, the validate-inputs handler sets
`areInputsValid` to false if and only if innerDiameter >= outerDiameter or
thickness <= 0, and otherwise leaves it as the host passed it; 20, 10, 5 is rejected and
the non-positive diameters -20, -10 with thickness 5 are not. -/
theorem validateInputs_rejects_iff :
    (∀ (i o t : ℚ) (s : ValidateInputs),
      ((GearCommandValidateInputsEventHandler.notify (some ⟨some i⟩) (some ⟨some o⟩)
          (some ⟨some t⟩) s).areInputsValid =
        if i ≥ o ∨ t ≤ 0 then false else s.areInputsValid)) ∧
    (∀ (i o t : ℚ) (msg : String),
      ((GearCommandValidateInputsEventHandler.notify (some ⟨some i⟩) (some ⟨some o⟩)
          (some ⟨some t⟩) ⟨msg, true⟩).areInputsValid = false ↔ (i ≥ o ∨ t ≤ 0))) ∧
    (∀ msg : String,
      (GearCommandValidateInputsEventHandler.notify (some ⟨some 20⟩) (some ⟨some 10⟩)
          (some ⟨some 5⟩) ⟨msg, true⟩).areInputsValid = false) ∧
    (∀ msg : String,
      (GearCommandValidateInputsEventHandler.notify (some ⟨some (-20)⟩) (some ⟨some (-10)⟩)
          (some ⟨some 5⟩) ⟨msg, true⟩).areInputsValid = true) := by
  have key : ∀ (i o t : ℚ) (s : ValidateInputs),
      ((GearCommandValidateInputsEventHandler.notify (some ⟨some i⟩) (some ⟨some o⟩)
          (some ⟨some t⟩) s).areInputsValid =
        if i ≥ o ∨ t ≤ 0 then false else s.areInputsValid) := by
    intro i o t s
    rw [notify_valid_expressions]
    by_cases h1 : i ≥ o
    · simp [h1]
    · by_cases h2 : t ≤ 0
      · simp [h1, h2]
      · simp [h1, h2]
  refine ⟨key, ?_, ?_, ?_⟩
  · intro i o t msg
    rw [key]
    by_cases h : i ≥ o ∨ t ≤ 0
    · simp [h]
    · simp [h]
  · intro msg
    rw [key]
    norm_num
  · intro msg
    rw [key]
    norm_num

/-! ## The ball count -/

/-- C7: for innerDiameter = 10, outerDiameter = 20, thickness = 5 the code computes
ballRadius = 1.5, ringWidth = 1.75, ball orbit radius = 7.5 (both as the centre of the
cutout circle and as the offset of the balls) and ball count = 14. -/
theorem default_dimensions :
    dBallRadius 10 20 5 = 1.5 ∧ dRingWidth 10 20 5 = 1.75 ∧
      (drawBallBearing 10 20 5).ballsCutout = ⟨⟨7.5, 0, 0⟩, 1.5⟩ ∧
      (drawBallBearing 10 20 5).balls
        = some ⟨⟨⟨7.5, 0, 0⟩, ⟨6, 0, 0⟩, 180⟩, ⟨⟨9, 0, 0⟩, ⟨6, 0, 0⟩⟩, 14⟩ ∧
      createBalls 1.5 7.5 = some ⟨⟨⟨7.5, 0, 0⟩, ⟨6, 0, 0⟩, 180⟩, ⟨⟨9, 0, 0⟩, ⟨6, 0, 0⟩⟩, 14⟩ ∧
      (drawBallBearing 10 20 5).ballCount = some 14 := by
  refine ⟨?_, ?_, ?_, ?_, ?_, ?_⟩
  · norm_num [dBallRadius]
  · norm_num [dRingWidth, dBallRadius]
  · norm_num [drawBallBearing, drawBallCutoutSketch, dBallRadius]
  · simp [drawBallBearing, createBalls, iBallCount, castInt, checkedInt, wrapInt, truncate,
      dBallRadius, INT_MIN, INT_MAX]
    norm_num
  · simp [createBalls, iBallCount, castInt, checkedInt, wrapInt, truncate, INT_MIN, INT_MAX]
    norm_num
  · simp [drawBallBearing, Bearing.ballCount, createBalls, iBallCount, castInt, checkedInt,
      wrapInt, truncate, dBallRadius, INT_MIN, INT_MAX]
    norm_num

/-- C8, refuted as stated: with ball radius 1 the orbit radii r1 = -683565417.9375 and
r2 = -0.25 satisfy r1 <= r2, yet `createBalls` computes the quantity 2147483647 for r1 (the
quotient -2147483648.469 truncates to INT_MIN and subtracting 1 wraps around) and -1 for
r2. -/
theorem ballCount_order_broken_at_wrap :
    (0 : ℚ) < 1 ∧ (-683565417.9375 : ℚ) ≤ -0.25 ∧
      createBalls 1 (-683565417.9375)
        = some ⟨⟨⟨-683565417.9375, 0, 0⟩, ⟨-683565418.9375, 0, 0⟩, 180⟩,
            ⟨⟨-683565416.9375, 0, 0⟩, ⟨-683565418.9375, 0, 0⟩⟩, 2147483647⟩ ∧
      createBalls 1 (-0.25)
        = some ⟨⟨⟨-0.25, 0, 0⟩, ⟨-1.25, 0, 0⟩, 180⟩, ⟨⟨0.75, 0, 0⟩, ⟨-1.25, 0, 0⟩⟩, -1⟩ ∧
      ¬ (2147483647 : Int) ≤ -1 := by
  refine ⟨by norm_num, by norm_num, ?_, ?_, by norm_num⟩
  · have hceil : ⌈(-(4294967296938213 / 2000000) : ℚ)⌉ = -2147483648 := by
      rw [Int.ceil_eq_iff]
      norm_num
    simp [createBalls, iBallCount, castInt, checkedInt, wrapInt, truncate, INT_MIN, INT_MAX]
    norm_num [hceil]
  · have hceil : ⌈(-(392699 / 500000) : ℚ)⌉ = 0 := by
      rw [Int.ceil_eq_iff]
      norm_num
    simp [createBalls, iBallCount, castInt, checkedInt, wrapInt, truncate, INT_MIN, INT_MAX]
    norm_num [hceil]

/-- C8, amended: for a fixed ball radius > 0 and orbit radii r1 <= r2 for which the
conversion to `int` is defined, the quantity `createBalls` computes for r1 is at most the one
it computes for r2, unless the quantity for r1 is 2147483647, the value the subtraction of 1
wraps to when the quotient for r1 truncates to INT_MIN. -/
theorem ballCount_monotone_without_wrap (ballRadius r1 r2 : ℚ) (f1 f2 : BallsFeature)
    (hRadius : 0 < ballRadius) (hr : r1 ≤ r2)
    (h1 : createBalls ballRadius r1 = some f1) (h2 : createBalls ballRadius r2 = some f2)
    (hWrap : f1.quantity ≠ INT_MAX) :
    f1.quantity ≤ f2.quantity :=
  iBallCount_mono ballRadius r1 r2 f1.quantity f2.quantity hRadius hr
    (createBalls_quantity _ _ _ h1) (createBalls_quantity _ _ _ h2) hWrap

/-- Witness of C8 (amended): with ball radius 1.5 the orbit radii -7.5 and 7.5 give the
quantities -16 and 14, across the truncation toward zero. -/
theorem ballCount_monotone_without_wrap_witness :
    createBalls 1.5 (-7.5)
        = some ⟨⟨⟨-7.5, 0, 0⟩, ⟨-9, 0, 0⟩, 180⟩, ⟨⟨-6, 0, 0⟩, ⟨-9, 0, 0⟩⟩, -16⟩ ∧
      createBalls 1.5 7.5
        = some ⟨⟨⟨7.5, 0, 0⟩, ⟨6, 0, 0⟩, 180⟩, ⟨⟨9, 0, 0⟩, ⟨6, 0, 0⟩⟩, 14⟩ ∧
      (-16 : Int) ≠ INT_MAX ∧ (-16 : Int) ≤ 14 := by
  have h1 : createBalls 1.5 (-7.5)
      = some ⟨⟨⟨-7.5, 0, 0⟩, ⟨-9, 0, 0⟩, 180⟩, ⟨⟨-6, 0, 0⟩, ⟨-9, 0, 0⟩⟩, -16⟩ := by
    have hceil : ⌈(-(392699 / 25000) : ℚ)⌉ = -15 := by
      rw [Int.ceil_eq_iff]
      norm_num
    simp [createBalls, iBallCount, castInt, checkedInt, wrapInt, truncate, INT_MIN, INT_MAX]
    norm_num [hceil]
  have h2 : createBalls 1.5 7.5
      = some ⟨⟨⟨7.5, 0, 0⟩, ⟨6, 0, 0⟩, 180⟩, ⟨⟨9, 0, 0⟩, ⟨6, 0, 0⟩⟩, 14⟩ := by
    simp [createBalls, iBallCount, castInt, checkedInt, wrapInt, truncate, INT_MIN, INT_MAX]
    norm_num
  have h3 : (-16 : Int) ≠ INT_MAX := by
    unfold INT_MAX
    norm_num
  exact ⟨h1, h2, h3,
    ballCount_monotone_without_wrap 1.5 (-7.5) 7.5 _ _ (by norm_num) (by norm_num) h1 h2 h3⟩

/-- C5, refuted as stated: there is no valid spec (innerDiameter > 0,
innerDiameter < outerDiameter, thickness > 0) for which the code computes a ball count
below 1. -/
theorem no_valid_spec_ballCount_lt_one :
    ¬ ∃ (innerDiameter outerDiameter thickness : ℚ) (c : Int),
        0 < innerDiameter ∧ innerDiameter < outerDiameter ∧ 0 < thickness ∧
          (drawBallBearing innerDiameter outerDiameter thickness).ballCount = some c ∧
          c < 1 := by
  rintro ⟨i, o, t, c, hi, hio, ht, hc, hlt⟩
  have := ballCount_valid_ge_four i o t hi hio ht c hc
  omega

/-- C5, amended: for every valid spec, however small outerDiameter - innerDiameter is
relative to thickness, every ball count the code computes (the conversion to `int` being
defined) is at least 1. -/
theorem valid_spec_ballCount_ge_one (innerDiameter outerDiameter thickness : ℚ)
    (hInner : 0 < innerDiameter) (hLt : innerDiameter < outerDiameter)
    (hThickness : 0 < thickness) (c : Int)
    (hc : (drawBallBearing innerDiameter outerDiameter thickness).ballCount = some c) :
    1 ≤ c := by
  have h := ballCount_valid_ge_four innerDiameter outerDiameter thickness hInner hLt
    hThickness c hc
  omega

/-- Witness of C5 (amended): innerDiameter = 1, outerDiameter = 100, thickness = 1000 gives
the count 4, and innerDiameter = 10, outerDiameter = 10.001, thickness = 5 gives 104723. -/
theorem valid_spec_ballCount_ge_one_witness :
    (drawBallBearing 1 100 1000).ballCount = some 4 ∧ (1 : Int) ≤ 4 ∧
      (drawBallBearing 10 10.001 5).ballCount = some 104723 := by
  have h1 : (drawBallBearing 1 100 1000).ballCount = some 4 := by
    simp [drawBallBearing, Bearing.ballCount, createBalls, iBallCount, castInt, checkedInt,
      wrapInt, truncate, dBallRadius, INT_MIN, INT_MAX]
    norm_num
  refine ⟨h1, valid_spec_ballCount_ge_one 1 100 1000 (by norm_num) (by norm_num)
    (by norm_num) 4 h1, ?_⟩
  simp [drawBallBearing, Bearing.ballCount, createBalls, iBallCount, castInt, checkedInt,
    wrapInt, truncate, dBallRadius, INT_MIN, INT_MAX]
  norm_num

/-! ## The sketch profiles -/

/-- C9: for all positive r, ringWidth and t the four lines of `drawInnerRingSketch` form a
closed loop of four segments (each ends where the next begins, the last where the first
begins) whose vertices are exactly the four distinct corners (r, -t/2), (r, t/2),
(r + ringWidth, t/2), (r + ringWidth, -t/2). -/
theorem innerRing_closed_rectangle (r ringWidth t : ℚ) (_hr : 0 < r)
    (hWidth : 0 < ringWidth) (ht : 0 < t) :
    (drawInnerRingSketch r ringWidth t).length = 4 ∧
      ClosedLoop (drawInnerRingSketch r ringWidth t) ∧
      (∀ p : Point3D, p ∈ vertices (drawInnerRingSketch r ringWidth t) ↔
        p ∈ [(⟨r, -t / 2, 0⟩ : Point3D), ⟨r, t / 2, 0⟩, ⟨r + ringWidth, t / 2, 0⟩,
          ⟨r + ringWidth, -t / 2, 0⟩]) ∧
      [(⟨r, -t / 2, 0⟩ : Point3D), ⟨r, t / 2, 0⟩, ⟨r + ringWidth, t / 2, 0⟩,
          ⟨r + ringWidth, -t / 2, 0⟩].Nodup := by
  have e1 : -t * 0.5 = -t / 2 := by norm_num; ring
  have e2 : t * 0.5 = t / 2 := by norm_num; ring
  refine ⟨rfl, ?_, ?_, ?_⟩
  · simp [ClosedLoop, drawInnerRingSketch]
  · intro p
    simp only [vertices, drawInnerRingSketch, e1, e2, List.flatMap_cons, List.flatMap_nil,
      List.mem_append, List.mem_cons, List.mem_singleton, List.not_mem_nil, or_false]
    tauto
  · have hne : -t / 2 ≠ t / 2 := by
      intro h
      linarith
    have hne2 : r ≠ r + ringWidth := by
      intro h
      linarith
    simp [Point3D.mk.injEq, hne, hne.symm, hne2, hWidth.ne']

/-- Witness of C9 at r = 5, ringWidth = 1.75, t = 5, the inner ring of the default bearing. -/
theorem innerRing_closed_rectangle_witness :
    (drawInnerRingSketch 5 1.75 5).length = 4 ∧
      ClosedLoop (drawInnerRingSketch 5 1.75 5) ∧
      (∀ p : Point3D, p ∈ vertices (drawInnerRingSketch 5 1.75 5) ↔
        p ∈ [(⟨5, -5 / 2, 0⟩ : Point3D), ⟨5, 5 / 2, 0⟩, ⟨5 + 1.75, 5 / 2, 0⟩,
          ⟨5 + 1.75, -5 / 2, 0⟩]) ∧
      [(⟨5, -5 / 2, 0⟩ : Point3D), ⟨5, 5 / 2, 0⟩, ⟨5 + 1.75, 5 / 2, 0⟩,
          ⟨5 + 1.75, -5 / 2, 0⟩].Nodup :=
  innerRing_closed_rectangle 5 1.75 5 (by norm_num) (by norm_num) (by norm_num)

/-- C10: for every valid spec the three profiles `drawBallBearing` sketches lie in the band
-thickness/2 <= y <= thickness/2: every vertex of the inner-ring and outer-ring rectangles
has |y| = thickness/2 (so every point of their segments has |y| <= thickness/2), and the
ball-cutout circle has centre y = 0 and radius ballRadius <= thickness/2, so every point of
it has |y| <= thickness/2. -/
theorem profiles_within_band (innerDiameter outerDiameter thickness : ℚ)
    (_hInner : 0 < innerDiameter) (hLt : innerDiameter < outerDiameter)
    (hThickness : 0 < thickness) :
    (∀ p ∈ vertices (drawBallBearing innerDiameter outerDiameter thickness).innerRing,
        |p.y| = thickness / 2) ∧
      (∀ p ∈ vertices (drawBallBearing innerDiameter outerDiameter thickness).outerRing,
        |p.y| = thickness / 2) ∧
      (∀ l ∈ (drawBallBearing innerDiameter outerDiameter thickness).innerRing ++
            (drawBallBearing innerDiameter outerDiameter thickness).outerRing,
        ∀ x y : ℝ, l.Passes x y → |y| ≤ (thickness : ℝ) / 2) ∧
      (drawBallBearing innerDiameter outerDiameter thickness).ballsCutout.center.y = 0 ∧
      (drawBallBearing innerDiameter outerDiameter thickness).ballsCutout.radius
        = dBallRadius innerDiameter outerDiameter thickness ∧
      dBallRadius innerDiameter outerDiameter thickness ≤ thickness / 2 ∧
      (∀ x y : ℝ,
        (drawBallBearing innerDiameter outerDiameter thickness).ballsCutout.Passes x y →
          |y| ≤ (thickness : ℝ) / 2) := by
  obtain ⟨hneg, hpos⟩ := abs_half_thickness thickness hThickness
  have hbr0 := dBallRadius_pos_of_valid innerDiameter outerDiameter thickness hLt hThickness
  have hbr : dBallRadius innerDiameter outerDiameter thickness ≤ thickness / 2 := by
    have := dBallRadius_le_thickness innerDiameter outerDiameter thickness
    norm_num at this
    linarith
  have hin : ∀ p ∈ vertices (drawBallBearing innerDiameter outerDiameter thickness).innerRing,
      |p.y| = thickness / 2 := by
    intro p hp
    simp only [vertices, drawBallBearing, drawInnerRingSketch, List.flatMap_cons,
      List.flatMap_nil, List.mem_append, List.mem_cons, List.mem_singleton, List.not_mem_nil,
      or_false] at hp
    rcases hp with (h | h) | (h | h) | (h | h) | (h | h) <;> rw [h] <;> assumption
  have hout : ∀ p ∈ vertices (drawBallBearing innerDiameter outerDiameter thickness).outerRing,
      |p.y| = thickness / 2 := by
    intro p hp
    simp only [vertices, drawBallBearing, drawOuterRingSketch, List.flatMap_cons,
      List.flatMap_nil, List.mem_append, List.mem_cons, List.mem_singleton, List.not_mem_nil,
      or_false] at hp
    rcases hp with (h | h) | (h | h) | (h | h) | (h | h) <;> rw [h] <;> assumption
  refine ⟨hin, hout, ?_, rfl, rfl, hbr, ?_⟩
  · intro l hl x y hxy
    have hcast : ((thickness / 2 : ℚ) : ℝ) = (thickness : ℝ) / 2 := by push_cast; ring
    rw [← hcast]
    rcases List.mem_append.mp hl with h | h
    · exact line_within_band l _
        (hin _ ((mem_vertices _ _).mpr ⟨l, h, Or.inl rfl⟩))
        (hin _ ((mem_vertices _ _).mpr ⟨l, h, Or.inr rfl⟩)) x y hxy
    · exact line_within_band l _
        (hout _ ((mem_vertices _ _).mpr ⟨l, h, Or.inl rfl⟩))
        (hout _ ((mem_vertices _ _).mpr ⟨l, h, Or.inr rfl⟩)) x y hxy
  · intro x y hxy
    have hcast : ((thickness / 2 : ℚ) : ℝ) = (thickness : ℝ) / 2 := by push_cast; ring
    rw [← hcast]
    exact circle_within_band _ _ rfl (le_of_lt hbr0) hbr x y hxy

/-- Witness of C10 at the default dialog values 10, 20, 5. -/
theorem profiles_within_band_witness :
    (∀ p ∈ vertices (drawBallBearing 10 20 5).innerRing, |p.y| = (5 : ℚ) / 2) ∧
      (∀ p ∈ vertices (drawBallBearing 10 20 5).outerRing, |p.y| = (5 : ℚ) / 2) ∧
      (∀ l ∈ (drawBallBearing 10 20 5).innerRing ++ (drawBallBearing 10 20 5).outerRing,
        ∀ x y : ℝ, l.Passes x y → |y| ≤ ((5 : ℚ) : ℝ) / 2) ∧
      (drawBallBearing 10 20 5).ballsCutout.center.y = 0 ∧
      (drawBallBearing 10 20 5).ballsCutout.radius = dBallRadius 10 20 5 ∧
      dBallRadius 10 20 5 ≤ (5 : ℚ) / 2 ∧
      (∀ x y : ℝ, (drawBallBearing 10 20 5).ballsCutout.Passes x y →
          |y| ≤ ((5 : ℚ) : ℝ) / 2) :=
  profiles_within_band 10 20 5 (by norm_num) (by norm_num) (by norm_num)

/-! ## The ball orbit and the ring width -/

theorem orbit_quarter (i o : ℚ) :
    (i + o) * 0.5 * 0.5 = (i + o) / 4 ∧ (o + i) * 0.5 * 0.5 = (i + o) / 4 := by
  constructor
  · norm_num
    ring
  · norm_num
    ring

theorem createBalls_arc_center (br off : ℚ) (f : BallsFeature)
    (h : createBalls br off = some f) :
    f.arc.center = ⟨off, 0, 0⟩ ∧ f.arc.startPoint = ⟨off - br, 0, 0⟩ ∧
      f.line = ⟨⟨off + br, 0, 0⟩, ⟨off - br, 0, 0⟩⟩ := by
  unfold createBalls at h
  cases hc : iBallCount br off with
  | none => simp [hc] at h
  | some n =>
    rw [hc] at h
    simp only [Option.map_some', Option.some.injEq] at h
    rw [← h]
    norm_num

theorem dRingWidth_ge_gap (i o t : ℚ) : (o - i) * 0.175 ≤ dRingWidth i o t := by
  have h := dBallRadius_le_gap i o t
  unfold dRingWidth
  norm_num at h ⊢
  linarith

theorem dRingWidth_eq_gap_iff (i o t : ℚ) :
    dRingWidth i o t = (o - i) * 0.175 ↔ (o - i) / 2 ≤ t := by
  unfold dRingWidth
  rw [dBallRadius_min]
  rcases le_total t ((o - i) * 0.5) with h | h
  · rw [min_eq_left h]
    norm_num at h ⊢
    constructor
    · intro he
      linarith
    · intro he
      linarith
  · rw [min_eq_right h]
    norm_num at h ⊢
    constructor
    · intro _
      linarith
    · intro _
      ring

/-- C11: for every innerDiameter and outerDiameter the ball orbit radius `drawBallBearing`
uses is (innerDiameter + outerDiameter)/4, and that one value is the x-coordinate of the
centre of the ball-cutout circle, the offset passed to `createBalls`, the x-coordinate of the
centre of the ball profile and the offset from which the ball count is computed. -/
theorem orbitRadius_shared (innerDiameter outerDiameter thickness : ℚ) :
    (drawBallBearing innerDiameter outerDiameter thickness).ballsCutout.center
        = ⟨(innerDiameter + outerDiameter) / 4, 0, 0⟩ ∧
      (drawBallBearing innerDiameter outerDiameter thickness).balls
        = createBalls (dBallRadius innerDiameter outerDiameter thickness)
            ((innerDiameter + outerDiameter) / 4) ∧
      (∀ f : BallsFeature,
        (drawBallBearing innerDiameter outerDiameter thickness).balls = some f →
          f.arc.center = ⟨(innerDiameter + outerDiameter) / 4, 0, 0⟩ ∧
            f.arc.center.x
              = (drawBallBearing innerDiameter outerDiameter thickness).ballsCutout.center.x) ∧
      (drawBallBearing innerDiameter outerDiameter thickness).ballCount
        = iBallCount (dBallRadius innerDiameter outerDiameter thickness)
            ((innerDiameter + outerDiameter) / 4) := by
  obtain ⟨e1, e2⟩ := orbit_quarter innerDiameter outerDiameter
  have hc : (drawBallBearing innerDiameter outerDiameter thickness).ballsCutout.center
      = ⟨(innerDiameter + outerDiameter) / 4, 0, 0⟩ := by
    show (⟨(outerDiameter + innerDiameter) * 0.5 * 0.5, 0, 0.0⟩ : Point3D) = _
    rw [e2]
    norm_num
  have hb : (drawBallBearing innerDiameter outerDiameter thickness).balls
      = createBalls (dBallRadius innerDiameter outerDiameter thickness)
          ((innerDiameter + outerDiameter) / 4) := by
    show createBalls _ ((innerDiameter + outerDiameter) * 0.5 * 0.5) = _
    rw [e1]
  refine ⟨hc, hb, ?_, ?_⟩
  · intro f hf
    rw [hb] at hf
    have h := (createBalls_arc_center _ _ f hf).1
    rw [hc, h]
    exact ⟨rfl, rfl⟩
  · rw [drawBallBearing_ballCount, e1]

/-- Witness of C11 at the default dialog values 10, 20, 5: the ball profile is centred at
x = (10 + 20)/4, the x-coordinate of the centre of the cutout circle. -/
theorem orbitRadius_shared_witness :
    (drawBallBearing 10 20 5).balls
        = some ⟨⟨⟨7.5, 0, 0⟩, ⟨6, 0, 0⟩, 180⟩, ⟨⟨9, 0, 0⟩, ⟨6, 0, 0⟩⟩, 14⟩ ∧
      (⟨7.5, 0, 0⟩ : Point3D) = ⟨((10 : ℚ) + 20) / 4, 0, 0⟩ ∧
      (7.5 : ℚ) = (drawBallBearing 10 20 5).ballsCutout.center.x := by
  have hf : (drawBallBearing 10 20 5).balls
      = some ⟨⟨⟨7.5, 0, 0⟩, ⟨6, 0, 0⟩, 180⟩, ⟨⟨9, 0, 0⟩, ⟨6, 0, 0⟩⟩, 14⟩ := by
    simp [drawBallBearing, createBalls, iBallCount, castInt, checkedInt, wrapInt, truncate,
      dBallRadius, INT_MIN, INT_MAX]
    norm_num
  have h := (orbitRadius_shared 10 20 5).2.2.1 _ hf
  exact ⟨hf, h.1, h.2⟩

/-- C12: for innerDiameter < outerDiameter and thickness > 0 the ring width computed by
`drawBallBearing` is positive and at least 0.175 * (outerDiameter - innerDiameter), with
equality exactly when thickness >= (outerDiameter - innerDiameter)/2; the fillet radius
ringWidth * 0.1 passed to both ring fillets is positive as well. -/
theorem ringWidth_positive (innerDiameter outerDiameter thickness : ℚ)
    (hLt : innerDiameter < outerDiameter) (_hThickness : 0 < thickness) :
    0 < dRingWidth innerDiameter outerDiameter thickness ∧
      0.175 * (outerDiameter - innerDiameter)
        ≤ dRingWidth innerDiameter outerDiameter thickness ∧
      (dRingWidth innerDiameter outerDiameter thickness
          = 0.175 * (outerDiameter - innerDiameter) ↔
        thickness ≥ (outerDiameter - innerDiameter) / 2) ∧
      (drawBallBearing innerDiameter outerDiameter thickness).innerFilletRadius
        = dRingWidth innerDiameter outerDiameter thickness * 0.1 ∧
      (drawBallBearing innerDiameter outerDiameter thickness).outerFilletRadius
        = dRingWidth innerDiameter outerDiameter thickness * 0.1 ∧
      0 < (drawBallBearing innerDiameter outerDiameter thickness).innerFilletRadius ∧
      0 < (drawBallBearing innerDiameter outerDiameter thickness).outerFilletRadius := by
  have hge := dRingWidth_ge_gap innerDiameter outerDiameter thickness
  have hiff := dRingWidth_eq_gap_iff innerDiameter outerDiameter thickness
  have hpos : 0 < dRingWidth innerDiameter outerDiameter thickness := by
    norm_num at hge
    linarith
  have hf : 0 < dRingWidth innerDiameter outerDiameter thickness * 0.1 :=
    mul_pos hpos (by norm_num)
  refine ⟨hpos, ?_, ?_, rfl, rfl, hf, hf⟩
  · rw [mul_comm]
    exact hge
  · rw [mul_comm]
    exact hiff

/-- Witness of C12 at the default dialog values 10, 20, 5, where thickness equals half the
gap and the ring width is 0.175 * 10. -/
theorem ringWidth_positive_witness :
    0 < dRingWidth 10 20 5 ∧ 0.175 * ((20 : ℚ) - 10) ≤ dRingWidth 10 20 5 ∧
      (dRingWidth 10 20 5 = 0.175 * ((20 : ℚ) - 10) ↔ (5 : ℚ) ≥ (20 - 10) / 2) ∧
      (drawBallBearing 10 20 5).innerFilletRadius = dRingWidth 10 20 5 * 0.1 ∧
      (drawBallBearing 10 20 5).outerFilletRadius = dRingWidth 10 20 5 * 0.1 ∧
      0 < (drawBallBearing 10 20 5).innerFilletRadius ∧
      0 < (drawBallBearing 10 20 5).outerFilletRadius :=
  ringWidth_positive 10 20 5 (by norm_num) (by norm_num)

/-! ## Radial layout of the rings and the ball cutout -/

theorem ring_edges (i o t : ℚ) :
    i * 0.5 + dRingWidth i o t = (i + o) / 4 - dBallRadius i o t / 2 ∧
      o * 0.5 - dRingWidth i o t = (i + o) / 4 + dBallRadius i o t / 2 := by
  unfold dRingWidth
  constructor
  · norm_num
    ring
  · norm_num
    ring

theorem innerRing_vertex_x (i o t : ℚ) (p : Point3D)
    (hp : p ∈ vertices (drawBallBearing i o t).innerRing) :
    p.x = i / 2 ∨ p.x = (i + o) / 4 - dBallRadius i o t / 2 := by
  have e0 : i * 0.5 = i / 2 := by norm_num; ring
  have e1 := (ring_edges i o t).1
  simp only [vertices, drawBallBearing, drawInnerRingSketch, List.flatMap_cons,
    List.flatMap_nil, List.mem_append, List.mem_cons, List.mem_singleton, List.not_mem_nil,
    or_false] at hp
  rcases hp with (h | h) | (h | h) | (h | h) | (h | h) <;> rw [h] <;>
    first
      | exact Or.inl e0
      | exact Or.inr e1

theorem outerRing_vertex_x (i o t : ℚ) (p : Point3D)
    (hp : p ∈ vertices (drawBallBearing i o t).outerRing) :
    p.x = o / 2 ∨ p.x = (i + o) / 4 + dBallRadius i o t / 2 := by
  have e0 : o * 0.5 = o / 2 := by norm_num; ring
  have e1 := (ring_edges i o t).2
  simp only [vertices, drawBallBearing, drawOuterRingSketch, List.flatMap_cons,
    List.flatMap_nil, List.mem_append, List.mem_cons, List.mem_singleton, List.not_mem_nil,
    or_false] at hp
  rcases hp with (h | h) | (h | h) | (h | h) | (h | h) <;> rw [h] <;>
    first
      | exact Or.inl e0
      | exact Or.inr e1

theorem line_x_between (l : SketchLine) (a b : ℚ) (h0 : a ≤ l.startPoint.x)
    (h0b : l.startPoint.x ≤ b) (h1 : a ≤ l.endPoint.x) (h1b : l.endPoint.x ≤ b) (x y : ℝ)
    (h : l.Passes x y) : (a : ℝ) ≤ x ∧ x ≤ (b : ℝ) := by
  obtain ⟨s, hs0, hs1, hx, -⟩ := h
  have hs1c : 0 ≤ 1 - s := by linarith
  have c0 : (a : ℝ) ≤ (l.startPoint.x : ℝ) := by exact_mod_cast h0
  have c0b : (l.startPoint.x : ℝ) ≤ (b : ℝ) := by exact_mod_cast h0b
  have c1 : (a : ℝ) ≤ (l.endPoint.x : ℝ) := by exact_mod_cast h1
  have c1b : (l.endPoint.x : ℝ) ≤ (b : ℝ) := by exact_mod_cast h1b
  rw [hx]
  constructor
  · nlinarith [mul_nonneg hs1c (sub_nonneg.mpr c0), mul_nonneg hs0 (sub_nonneg.mpr c1)]
  · nlinarith [mul_nonneg hs1c (sub_nonneg.mpr c0b), mul_nonneg hs0 (sub_nonneg.mpr c1b)]

theorem circle_x_between (c : SketchCircle) (hr0 : 0 ≤ c.radius) (x y : ℝ)
    (h : c.Passes x y) :
    ((c.center.x - c.radius : ℚ) : ℝ) ≤ x ∧ x ≤ ((c.center.x + c.radius : ℚ) : ℝ) := by
  unfold SketchCircle.Passes at h
  have hsq : (x - (c.center.x : ℝ)) ^ 2 ≤ (c.radius : ℝ) ^ 2 := by
    have := sq_nonneg (y - (c.center.y : ℝ))
    linarith
  have habs := sq_le_sq.mp hsq
  have hr0c : (0 : ℝ) ≤ (c.radius : ℝ) := by exact_mod_cast hr0
  rw [abs_of_nonneg hr0c, abs_le] at habs
  push_cast
  constructor
  · linarith [habs.1]
  · linarith [habs.2]

theorem ballsCutout_eq (i o t : ℚ) :
    (drawBallBearing i o t).ballsCutout = ⟨⟨(i + o) / 4, 0, 0⟩, dBallRadius i o t⟩ := by
  show (⟨⟨(o + i) * 0.5 * 0.5, 0, 0.0⟩, dBallRadius i o t⟩ : SketchCircle) = _
  rw [(orbit_quarter i o).2]
  norm_num

theorem cutout_clear_of_bores (i o t : ℚ) (hio : i < o) :
    i / 2 < (i + o) / 4 - dBallRadius i o t ∧ (i + o) / 4 + dBallRadius i o t < o / 2 := by
  have h := dBallRadius_le_gap i o t
  norm_num at h
  constructor
  · linarith
  · linarith

/-- C13: for every input the inner-ring rectangle that `drawBallBearing` sketches spans
x = innerDiameter/2 to x = innerDiameter/2 + ringWidth = orbitRadius - ballRadius/2 and the
outer-ring rectangle spans x = outerDiameter/2 - ringWidth = orbitRadius + ballRadius/2 to
x = outerDiameter/2, with orbitRadius = (innerDiameter + outerDiameter)/4, so the gap between
the facing edges of the two sketches is exactly ballRadius, centred on the orbit, and the
cutout circle's extreme points orbitRadius ± ballRadius lie ballRadius/2 beyond those edges.
For innerDiameter < outerDiameter and thickness > 0 every point of the inner rectangle is
left of every point of the outer rectangle, the extreme points of the circle lie inside the
rings, and every point of the cutout circle has innerDiameter/2 < x < outerDiameter/2. -/
theorem rings_and_cutout_layout (innerDiameter outerDiameter thickness : ℚ) :
    (innerDiameter * 0.5 + dRingWidth innerDiameter outerDiameter thickness
        = (innerDiameter + outerDiameter) / 4
          - dBallRadius innerDiameter outerDiameter thickness / 2) ∧
    (outerDiameter * 0.5 - dRingWidth innerDiameter outerDiameter thickness
        = (innerDiameter + outerDiameter) / 4
          + dBallRadius innerDiameter outerDiameter thickness / 2) ∧
    ((outerDiameter * 0.5 - dRingWidth innerDiameter outerDiameter thickness)
        - (innerDiameter * 0.5 + dRingWidth innerDiameter outerDiameter thickness)
        = dBallRadius innerDiameter outerDiameter thickness) ∧
    (∀ p ∈ vertices (drawBallBearing innerDiameter outerDiameter thickness).innerRing,
      p.x = innerDiameter / 2 ∨
        p.x = (innerDiameter + outerDiameter) / 4
          - dBallRadius innerDiameter outerDiameter thickness / 2) ∧
    (∀ p ∈ vertices (drawBallBearing innerDiameter outerDiameter thickness).outerRing,
      p.x = outerDiameter / 2 ∨
        p.x = (innerDiameter + outerDiameter) / 4
          + dBallRadius innerDiameter outerDiameter thickness / 2) ∧
    ((drawBallBearing innerDiameter outerDiameter thickness).ballsCutout
        = ⟨⟨(innerDiameter + outerDiameter) / 4, 0, 0⟩,
            dBallRadius innerDiameter outerDiameter thickness⟩) ∧
    ((innerDiameter * 0.5 + dRingWidth innerDiameter outerDiameter thickness)
        - ((innerDiameter + outerDiameter) / 4
            - dBallRadius innerDiameter outerDiameter thickness)
        = dBallRadius innerDiameter outerDiameter thickness / 2) ∧
    (((innerDiameter + outerDiameter) / 4 + dBallRadius innerDiameter outerDiameter thickness)
        - (outerDiameter * 0.5 - dRingWidth innerDiameter outerDiameter thickness)
        = dBallRadius innerDiameter outerDiameter thickness / 2) ∧
    ((drawBallBearing innerDiameter outerDiameter thickness).innerRing
        = [ ⟨⟨innerDiameter / 2, -thickness / 2, 0⟩, ⟨innerDiameter / 2, thickness / 2, 0⟩⟩,
            ⟨⟨innerDiameter / 2, thickness / 2, 0⟩,
              ⟨(innerDiameter + outerDiameter) / 4
                - dBallRadius innerDiameter outerDiameter thickness / 2, thickness / 2, 0⟩⟩,
            ⟨⟨(innerDiameter + outerDiameter) / 4
                - dBallRadius innerDiameter outerDiameter thickness / 2, thickness / 2, 0⟩,
              ⟨(innerDiameter + outerDiameter) / 4
                - dBallRadius innerDiameter outerDiameter thickness / 2, -thickness / 2, 0⟩⟩,
            ⟨⟨(innerDiameter + outerDiameter) / 4
                - dBallRadius innerDiameter outerDiameter thickness / 2, -thickness / 2, 0⟩,
              ⟨innerDiameter / 2, -thickness / 2, 0⟩⟩ ]) ∧
    ((drawBallBearing innerDiameter outerDiameter thickness).outerRing
        = [ ⟨⟨outerDiameter / 2, -thickness / 2, 0⟩, ⟨outerDiameter / 2, thickness / 2, 0⟩⟩,
            ⟨⟨outerDiameter / 2, thickness / 2, 0⟩,
              ⟨(innerDiameter + outerDiameter) / 4
                + dBallRadius innerDiameter outerDiameter thickness / 2, thickness / 2, 0⟩⟩,
            ⟨⟨(innerDiameter + outerDiameter) / 4
                + dBallRadius innerDiameter outerDiameter thickness / 2, thickness / 2, 0⟩,
              ⟨(innerDiameter + outerDiameter) / 4
                + dBallRadius innerDiameter outerDiameter thickness / 2, -thickness / 2, 0⟩⟩,
            ⟨⟨(innerDiameter + outerDiameter) / 4
                + dBallRadius innerDiameter outerDiameter thickness / 2, -thickness / 2, 0⟩,
              ⟨outerDiameter / 2, -thickness / 2, 0⟩⟩ ]) ∧
    (((innerDiameter + outerDiameter) / 4
          + dBallRadius innerDiameter outerDiameter thickness / 2)
        - ((innerDiameter + outerDiameter) / 4
          - dBallRadius innerDiameter outerDiameter thickness / 2)
        = dBallRadius innerDiameter outerDiameter thickness) ∧
    (∃ p ∈ vertices (drawBallBearing innerDiameter outerDiameter thickness).innerRing,
      ∃ q ∈ vertices (drawBallBearing innerDiameter outerDiameter thickness).outerRing,
        p.x = (innerDiameter + outerDiameter) / 4
              - dBallRadius innerDiameter outerDiameter thickness / 2 ∧
          q.x = (innerDiameter + outerDiameter) / 4
              + dBallRadius innerDiameter outerDiameter thickness / 2 ∧
          q.x - p.x = (drawBallBearing innerDiameter outerDiameter thickness).ballsCutout.radius ∧
          p.x - ((drawBallBearing innerDiameter outerDiameter thickness).ballsCutout.center.x
                  - (drawBallBearing innerDiameter outerDiameter thickness).ballsCutout.radius)
            = (drawBallBearing innerDiameter outerDiameter thickness).ballsCutout.radius / 2 ∧
          ((drawBallBearing innerDiameter outerDiameter thickness).ballsCutout.center.x
                  + (drawBallBearing innerDiameter outerDiameter thickness).ballsCutout.radius)
              - q.x
            = (drawBallBearing innerDiameter outerDiameter thickness).ballsCutout.radius / 2) ∧
    (innerDiameter < outerDiameter → 0 < thickness →
      (∀ l1 ∈ (drawBallBearing innerDiameter outerDiameter thickness).innerRing,
        ∀ l2 ∈ (drawBallBearing innerDiameter outerDiameter thickness).outerRing,
        ∀ x1 y1 x2 y2 : ℝ, l1.Passes x1 y1 → l2.Passes x2 y2 →
          ((innerDiameter / 2 : ℚ) : ℝ) ≤ x1 ∧
          x1 ≤ (((innerDiameter + outerDiameter) / 4
                  - dBallRadius innerDiameter outerDiameter thickness / 2 : ℚ) : ℝ) ∧
          (((innerDiameter + outerDiameter) / 4
                  + dBallRadius innerDiameter outerDiameter thickness / 2 : ℚ) : ℝ) ≤ x2 ∧
          x2 ≤ ((outerDiameter / 2 : ℚ) : ℝ) ∧
          x1 < x2) ∧
      (∀ x y : ℝ,
        (drawBallBearing innerDiameter outerDiameter thickness).ballsCutout.Passes x y →
          ((innerDiameter / 2 : ℚ) : ℝ) < x ∧ x < ((outerDiameter / 2 : ℚ) : ℝ) ∧
          (((innerDiameter + outerDiameter) / 4
                  - dBallRadius innerDiameter outerDiameter thickness : ℚ) : ℝ) ≤ x ∧
          x ≤ (((innerDiameter + outerDiameter) / 4
                  + dBallRadius innerDiameter outerDiameter thickness : ℚ) : ℝ)) ∧
      (drawBallBearing innerDiameter outerDiameter thickness).ballsCutout.Passes
        (((innerDiameter + outerDiameter) / 4
            - dBallRadius innerDiameter outerDiameter thickness : ℚ) : ℝ) 0 ∧
      (drawBallBearing innerDiameter outerDiameter thickness).ballsCutout.Passes
        (((innerDiameter + outerDiameter) / 4
            + dBallRadius innerDiameter outerDiameter thickness : ℚ) : ℝ) 0 ∧
      innerDiameter / 2
        < (innerDiameter + outerDiameter) / 4
          - dBallRadius innerDiameter outerDiameter thickness ∧
      (innerDiameter + outerDiameter) / 4 + dBallRadius innerDiameter outerDiameter thickness
        < outerDiameter / 2 ∧
      (innerDiameter + outerDiameter) / 4 - dBallRadius innerDiameter outerDiameter thickness
        < (innerDiameter + outerDiameter) / 4
          - dBallRadius innerDiameter outerDiameter thickness / 2 ∧
      (innerDiameter + outerDiameter) / 4
          + dBallRadius innerDiameter outerDiameter thickness / 2
        < (innerDiameter + outerDiameter) / 4
          + dBallRadius innerDiameter outerDiameter thickness ∧
      (innerDiameter + outerDiameter) / 4
          - dBallRadius innerDiameter outerDiameter thickness / 2
        < (innerDiameter + outerDiameter) / 4
          + dBallRadius innerDiameter outerDiameter thickness / 2 ∧
      -thickness / 2 < 0 ∧ 0 < thickness / 2) := by
  obtain ⟨hE1, hE2⟩ := ring_edges innerDiameter outerDiameter thickness
  have hcut := ballsCutout_eq innerDiameter outerDiameter thickness
  have e1 : innerDiameter * 0.5 = innerDiameter / 2 := by norm_num; ring
  have e2 : outerDiameter * 0.5 = outerDiameter / 2 := by norm_num; ring
  have e3 : -thickness * 0.5 = -thickness / 2 := by norm_num; ring
  have e4 : thickness * 0.5 = thickness / 2 := by norm_num; ring
  have hinner : (drawBallBearing innerDiameter outerDiameter thickness).innerRing
      = drawInnerRingSketch (innerDiameter * 0.5)
          (dRingWidth innerDiameter outerDiameter thickness) thickness := rfl
  have houter : (drawBallBearing innerDiameter outerDiameter thickness).outerRing
      = drawOuterRingSketch (outerDiameter * 0.5)
          (dRingWidth innerDiameter outerDiameter thickness) thickness := rfl
  refine ⟨hE1, hE2, ?_, innerRing_vertex_x _ _ _, outerRing_vertex_x _ _ _, hcut, ?_, ?_,
    ?_, ?_, ?_, ?_, ?_⟩
  · rw [hE1, hE2]
    ring
  · rw [hE1]
    ring
  · rw [hE2]
    ring
  · rw [hinner]
    unfold drawInnerRingSketch
    rw [hE1, e1, e3, e4]
  · rw [houter]
    unfold drawOuterRingSketch
    rw [hE2, e2, e3, e4]
  · ring
  · refine ⟨⟨innerDiameter * 0.5 + dRingWidth innerDiameter outerDiameter thickness,
        thickness * 0.5, 0⟩, ?_,
      ⟨outerDiameter * 0.5 - dRingWidth innerDiameter outerDiameter thickness,
        thickness * 0.5, 0⟩, ?_, hE1, hE2, ?_, ?_, ?_⟩
    · rw [hinner]
      simp [vertices, drawInnerRingSketch]
    · rw [houter]
      simp [vertices, drawOuterRingSketch]
    · rw [hcut]
      show (outerDiameter * 0.5 - dRingWidth innerDiameter outerDiameter thickness)
          - (innerDiameter * 0.5 + dRingWidth innerDiameter outerDiameter thickness)
        = dBallRadius innerDiameter outerDiameter thickness
      rw [hE1, hE2]
      ring
    · rw [hcut]
      show (innerDiameter * 0.5 + dRingWidth innerDiameter outerDiameter thickness)
          - ((innerDiameter + outerDiameter) / 4
              - dBallRadius innerDiameter outerDiameter thickness)
        = dBallRadius innerDiameter outerDiameter thickness / 2
      rw [hE1]
      ring
    · rw [hcut]
      show ((innerDiameter + outerDiameter) / 4
              + dBallRadius innerDiameter outerDiameter thickness)
          - (outerDiameter * 0.5 - dRingWidth innerDiameter outerDiameter thickness)
        = dBallRadius innerDiameter outerDiameter thickness / 2
      rw [hE2]
      ring
  · intro hLt hThickness
    have hbr := dBallRadius_pos_of_valid innerDiameter outerDiameter thickness hLt hThickness
    have hgap := dBallRadius_le_gap innerDiameter outerDiameter thickness
    obtain ⟨hclr1, hclr2⟩ := cutout_clear_of_bores innerDiameter outerDiameter thickness hLt
    have hin : ∀ p ∈ vertices (drawBallBearing innerDiameter outerDiameter thickness).innerRing,
        innerDiameter / 2 ≤ p.x ∧
          p.x ≤ (innerDiameter + outerDiameter) / 4
            - dBallRadius innerDiameter outerDiameter thickness / 2 := by
      intro p hp
      rcases innerRing_vertex_x _ _ _ p hp with h | h
      · rw [h]
        exact ⟨le_refl _, by linarith⟩
      · rw [h]
        exact ⟨by linarith, le_refl _⟩
    have hout : ∀ p ∈ vertices (drawBallBearing innerDiameter outerDiameter thickness).outerRing,
        (innerDiameter + outerDiameter) / 4
            + dBallRadius innerDiameter outerDiameter thickness / 2 ≤ p.x ∧
          p.x ≤ outerDiameter / 2 := by
      intro p hp
      rcases outerRing_vertex_x _ _ _ p hp with h | h
      · rw [h]
        exact ⟨by linarith, le_refl _⟩
      · rw [h]
        exact ⟨le_refl _, by linarith⟩
    refine ⟨?_, ?_, ?_, ?_, hclr1, hclr2, by linarith, by linarith, by linarith,
      by linarith, by linarith⟩
    · intro l1 hl1 l2 hl2 x1 y1 x2 y2 h1 h2
      have s1 := hin _ ((mem_vertices _ _).mpr ⟨l1, hl1, Or.inl rfl⟩)
      have e1 := hin _ ((mem_vertices _ _).mpr ⟨l1, hl1, Or.inr rfl⟩)
      have s2 := hout _ ((mem_vertices _ _).mpr ⟨l2, hl2, Or.inl rfl⟩)
      have e2 := hout _ ((mem_vertices _ _).mpr ⟨l2, hl2, Or.inr rfl⟩)
      obtain ⟨a1, b1⟩ := line_x_between l1 _ _ s1.1 s1.2 e1.1 e1.2 x1 y1 h1
      obtain ⟨a2, b2⟩ := line_x_between l2 _ _ s2.1 s2.2 e2.1 e2.2 x2 y2 h2
      refine ⟨a1, b1, a2, b2, ?_⟩
      have hbrc : (0 : ℝ) < ((dBallRadius innerDiameter outerDiameter thickness : ℚ) : ℝ) := by
        exact_mod_cast hbr
      push_cast at b1 a2
      linarith
    · intro x y hxy
      rw [hcut] at hxy
      obtain ⟨lo, hi⟩ := circle_x_between _ (le_of_lt hbr) x y hxy
      have c1 : ((innerDiameter / 2 : ℚ) : ℝ)
          < (((innerDiameter + outerDiameter) / 4
              - dBallRadius innerDiameter outerDiameter thickness : ℚ) : ℝ) := by
        exact_mod_cast hclr1
      have c2 : (((innerDiameter + outerDiameter) / 4
              + dBallRadius innerDiameter outerDiameter thickness : ℚ) : ℝ)
          < ((outerDiameter / 2 : ℚ) : ℝ) := by
        exact_mod_cast hclr2
      exact ⟨lt_of_lt_of_le c1 lo, lt_of_le_of_lt hi c2, lo, hi⟩
    · rw [hcut]
      unfold SketchCircle.Passes
      push_cast
      ring
    · rw [hcut]
      unfold SketchCircle.Passes
      push_cast
      ring

/-- Witness of C13 at the default dialog values 10, 20, 5. -/
theorem rings_and_cutout_layout_witness :
    (10 : ℚ) < 20 ∧ (0 : ℚ) < 5 ∧
      (∀ l1 ∈ (drawBallBearing 10 20 5).innerRing,
        ∀ l2 ∈ (drawBallBearing 10 20 5).outerRing,
        ∀ x1 y1 x2 y2 : ℝ, l1.Passes x1 y1 → l2.Passes x2 y2 →
          (((10 : ℚ) / 2 : ℚ) : ℝ) ≤ x1 ∧
          x1 ≤ ((((10 : ℚ) + 20) / 4
                  - dBallRadius 10 20 5 / 2 : ℚ) : ℝ) ∧
          ((((10 : ℚ) + 20) / 4
                  + dBallRadius 10 20 5 / 2 : ℚ) : ℝ) ≤ x2 ∧
          x2 ≤ (((20 : ℚ) / 2 : ℚ) : ℝ) ∧
          x1 < x2) ∧
      (∀ x y : ℝ,
        (drawBallBearing 10 20 5).ballsCutout.Passes x y →
          (((10 : ℚ) / 2 : ℚ) : ℝ) < x ∧ x < (((20 : ℚ) / 2 : ℚ) : ℝ) ∧
          ((((10 : ℚ) + 20) / 4
                  - dBallRadius 10 20 5 : ℚ) : ℝ) ≤ x ∧
          x ≤ ((((10 : ℚ) + 20) / 4
                  + dBallRadius 10 20 5 : ℚ) : ℝ)) ∧
      (drawBallBearing 10 20 5).ballsCutout.Passes
        ((((10 : ℚ) + 20) / 4
            - dBallRadius 10 20 5 : ℚ) : ℝ) 0 ∧
      (drawBallBearing 10 20 5).ballsCutout.Passes
        ((((10 : ℚ) + 20) / 4
            + dBallRadius 10 20 5 : ℚ) : ℝ) 0 ∧
      (10 : ℚ) / 2
        < ((10 : ℚ) + 20) / 4
          - dBallRadius 10 20 5 ∧
      ((10 : ℚ) + 20) / 4 + dBallRadius 10 20 5
        < (20 : ℚ) / 2 ∧
      ((10 : ℚ) + 20) / 4 - dBallRadius 10 20 5
        < ((10 : ℚ) + 20) / 4
          - dBallRadius 10 20 5 / 2 ∧
      ((10 : ℚ) + 20) / 4
          + dBallRadius 10 20 5 / 2
        < ((10 : ℚ) + 20) / 4
          + dBallRadius 10 20 5 ∧
      ((10 : ℚ) + 20) / 4
          - dBallRadius 10 20 5 / 2
        < ((10 : ℚ) + 20) / 4
          + dBallRadius 10 20 5 / 2 ∧
      -(5 : ℚ) / 2 < 0 ∧ 0 < (5 : ℚ) / 2 :=
  ⟨by norm_num, by norm_num,
    (rings_and_cutout_layout 10 20 5).2.2.2.2.2.2.2.2.2.2.2.2 (by norm_num) (by norm_num)⟩

end BallBearing
